import Mathlib

/-!
Verification of the rico retro-pixel game engine (`rico.hpp`, `life.cpp`).

The C++ sources are shallowly embedded: machine integers become `Nat`
(with explicit `% 2^32` where 32-bit wraparound matters), C++ exceptions
become `Except String`, out-parameters become `Option` results, and the
process-wide singleton `GameEngine` becomes an explicit `EngineState`
value threaded through the operations.  Backend (SDL) calls are abstracted
by a `Backend` record of success flags; the model counts how many backend
acquisitions each `Construct` run attempts.
-/

namespace Rico

/-- Debounce state of one physical button, from `class HardwareButton`
in rico.hpp: public flags `pressed`, `down`, `released` and the private
`previous` (the value of `down` at the previous frame). -/
structure HardwareButton where
  pressed : Bool
  down : Bool
  released : Bool
  previous : Bool
deriving DecidableEq, Repr

/-- Default-constructed `HardwareButton()`: every field false. -/
def HardwareButton.init : HardwareButton :=
  { pressed := false, down := false, released := false, previous := false }

/-- Embedding of `HardwareButton::update`: clear the edge flags, set
`pressed` on a false-to-true transition of `down`, `released` on a
true-to-false transition, then record `previous = down`. -/
def HardwareButton.update (b : HardwareButton) : HardwareButton :=
  let b1 : HardwareButton := { b with pressed := false, released := false }
  let b2 : HardwareButton :=
    if b1.down ≠ b1.previous then
      (if b1.down then { b1 with pressed := true } else { b1 with released := true })
    else b1
  { b2 with previous := b2.down }

/-- One engine frame for a single button: the event-translation step
stores the raw hardware state into `down`, then the debounce step calls
`update()` (the per-frame order used by `GameEngine::Run`). -/
def HardwareButton.frame (b : HardwareButton) (raw : Bool) : HardwareButton :=
  HardwareButton.update { b with down := raw }

/-- States of a button after each frame of a raw-input sequence,
starting from state `b`. -/
def runFrames (b : HardwareButton) : List Bool → List HardwareButton
  | [] => []
  | r :: rs => HardwareButton.frame b r :: runFrames (HardwareButton.frame b r) rs

/-- Raw `down` value seen one frame before frame `i`, when the stream of
raw values is `raws` and the pre-stream `previous` bit is `p`. -/
def prevRawAux (p : Bool) (raws : List Bool) : Nat → Bool
  | 0 => p
  | i + 1 => raws.getD i false

/-- Raw `down` value one frame before frame `i` for a freshly
constructed button (whose `previous` starts false). -/
def prevRaw (raws : List Bool) (i : Nat) : Bool :=
  prevRawAux false raws i

/-- Tagged button identifier from `struct Button` in rico.hpp: either a
mouse button (payload the `uint8_t index`) or a keyboard key (payload the
`char key`, modelled by its code point). -/
inductive Button where
  | mouse (index : Nat)
  | keyboard (key : Nat)
deriving DecidableEq, Repr

/-- Constant `Button::LEFT = 1`. -/
def Button.LEFT : Nat := 1

/-- Constant `Button::RIGHT = 2`. -/
def Button.RIGHT : Nat := 2

/-- Constant `Button::first_index = 1`. -/
def Button.first_index : Nat := 1

/-- Constant `Button::last_index = 2`. -/
def Button.last_index : Nat := 2

/-- Constant `Button::first_key = 'a'` (code 97). -/
def Button.first_key : Nat := 97

/-- Constant `Button::last_key = 'z'` (code 122). -/
def Button.last_key : Nat := 122

/-- Embedding of `Button::valid`: `some i` models returning true with the
dense index `i` written to the out-parameter, `none` models returning
false (nothing written). -/
def Button.valid : Button → Option Nat
  | .mouse i =>
      if Button.first_index ≤ i ∧ i ≤ Button.last_index then some (i - Button.first_index)
      else none
  | .keyboard k =>
      if Button.first_key ≤ k ∧ k ≤ Button.last_key then some (k - Button.first_key)
      else none

/-- RGB color from `struct Color`: three `uint8_t` components, modelled
as `Nat` values (theorems carry the `< 256` range of `uint8_t`). -/
structure Color where
  r : Nat
  g : Nat
  b : Nat
deriving DecidableEq, Repr

/-- Embedding of `Color::operator uint32_t`: RGBA8888 packing
`255 + 2^24·r + 2^16·g + 2^8·b`.  The C++ accumulates through `uint32_t`
so the result is reduced mod `2^32` (no reduction actually occurs for
byte-sized components). -/
def Color.toUInt32 (c : Color) : Nat :=
  (255 + 16777216 * c.r + 65536 * c.g + 256 * c.b) % 4294967296

/-- Embedding of the unpacking constructor `Color::Color(uint32_t rgba)`
from the engine-header variant embedded in life.cpp: three rounds of
`rgba >>= 8` followed by a byte extraction (the assignment to a
`uint8_t` member reduces mod 256). -/
def Color.ofUInt32 (rgba : Nat) : Color :=
  let s1 := rgba / 256
  let b := s1 % 256
  let s2 := s1 / 256
  let g := s2 % 256
  let s3 := s2 / 256
  let r := s3 % 256
  { r := r, g := g, b := b }

/-- Bounds-checked 2D matrix from `template<typename T> class mat2D`
(and its twin `Tmat2D`): dimension fields plus the malloc-backed array,
modelled as a total function from flat indices. -/
structure Mat2D (T : Type) where
  rows : Nat
  cols : Nat
  data : Nat → T

/-- Embedding of reading `matrix[row][col]`: `operator[](uint32_t)`
throws `out_of_range` when `row >= rows`, and `Row::operator[]` throws
when `col >= length` (= `cols`); otherwise the flat element
`data[cols * row + col]` is read. -/
def Mat2D.rowGet {T : Type} (m : Mat2D T) (row col : Nat) : Except String T :=
  if row ≥ m.rows then .error "index out of range"
  else if col ≥ m.cols then .error "index out of range"
  else .ok (m.data (m.cols * row + col))

/-- Embedding of writing `matrix[row][col] = v`, with the same two
bounds checks as the read path. -/
def Mat2D.rowSet {T : Type} (m : Mat2D T) (row col : Nat) (v : T) : Except String (Mat2D T) :=
  if row ≥ m.rows then .error "index out of range"
  else if col ≥ m.cols then .error "index out of range"
  else .ok { m with data := fun i => if i = m.cols * row + col then v else m.data i }

/-- Embedding of reading `matrix[vec2D(x, y)]` (rico.hpp `mat2D`
signed-coordinate overload): negative components throw `out_of_range`
("negative index"); otherwise the casts to `uint32_t` are exact and the
access is `matrix[y][x]`. -/
def Mat2D.vecGet {T : Type} (m : Mat2D T) (x y : Int) : Except String T :=
  if x < 0 ∨ y < 0 then .error "negative index"
  else m.rowGet y.toNat x.toNat

/-- Embedding of writing `matrix[vec2D(x, y)] = v`. -/
def Mat2D.vecSet {T : Type} (m : Mat2D T) (x y : Int) (v : T) : Except String (Mat2D T) :=
  if x < 0 ∨ y < 0 then .error "negative index"
  else m.rowSet y.toNat x.toNat v

/-- Embedding of writing `matrix[Position(x, y)] = v` (the unsigned
`Position`-indexed overload of the `Tmat2D` variant embedded in
life.cpp): no sign check, then `matrix[y][x]`. -/
def Mat2D.posSet {T : Type} (m : Mat2D T) (x y : Nat) (v : T) : Except String (Mat2D T) :=
  m.rowSet y x v

/-- Embedding of reading `matrix[Position(x, y)]`. -/
def Mat2D.posGet {T : Type} (m : Mat2D T) (x y : Nat) : Except String T :=
  m.rowGet y x

/-- Success flags for the backend (SDL) acquisition calls made by
`GameEngine::Construct`, in call order. -/
structure Backend where
  sdlInitOk : Bool
  createWindowOk : Bool
  createRendererOk : Bool
  createTextureOk : Bool
  mallocOk : Bool
deriving DecidableEq, Repr

/-- Backend in which every acquisition succeeds. -/
def Backend.allOk : Backend :=
  { sdlInitOk := true, createWindowOk := true, createRendererOk := true,
    createTextureOk := true, mallocOk := true }

/-- State of the `GameEngine` singleton: the `init` flag, the window and
texture dimensions, the pixel scale, the three SDL handles and the SDL
video-subsystem state (each modelled by a liveness flag), the pixel
raster, and the per-category `HardwareButton` arrays. -/
structure EngineState where
  init : Bool
  window_width : Nat
  window_height : Nat
  texture_width : Nat
  texture_height : Nat
  pixel_size : Nat
  sdlLive : Bool
  hasWindow : Bool
  hasRenderer : Bool
  hasTexture : Bool
  data : Mat2D Nat
  mouse_state : List HardwareButton
  keyboard_state : List HardwareButton

/-- State produced by the private constructor `GameEngine()`: only
`init(false)` is set; the other members are left indeterminate in C++
and are given fixed default contents here (no claim depends on them). -/
def EngineState.fresh : EngineState :=
  { init := false, window_width := 0, window_height := 0,
    texture_width := 0, texture_height := 0, pixel_size := 0,
    sdlLive := false, hasWindow := false, hasRenderer := false, hasTexture := false,
    data := { rows := 0, cols := 0, data := fun _ => 0 },
    mouse_state := List.replicate 2 HardwareButton.init,
    keyboard_state := List.replicate 26 HardwareButton.init }

/-- Embedding of `GameEngine::~GameEngine`: when `init` is set, release
the texture, renderer and window, quit SDL, and clear `init`; otherwise
a no-op. -/
def EngineState.destruct (s : EngineState) : EngineState :=
  if s.init then
    { s with hasTexture := false, hasRenderer := false, hasWindow := false,
             sdlLive := false, init := false }
  else s

/-- Result of a `Construct` call: the returned `int`, the engine state
it leaves behind, and how many backend acquisition calls (SDL_Init,
SDL_CreateWindow, SDL_CreateRenderer, SDL_CreateTexture, malloc) were
attempted during the call. -/
structure ConstructResult where
  retval : Int
  state : EngineState
  acquisitions : Nat

/-- Embedding of `GameEngine::Construct`: destroy any live prior
instance, null the handles and reset every `HardwareButton`, validate
`pixel_size` and the divisibility of both window dimensions (throwing,
i.e. returning -1, before any backend call on violation), then perform
the five acquisitions in order, failing at the first unsuccessful one;
on full success store the raster sized `texture_height × texture_width`
and set `init`. -/
def construct (s0 : EngineState) (bk : Backend) (w h ps : Nat) : ConstructResult :=
  let s := s0.destruct
  let s := { s with hasWindow := false, hasRenderer := false, hasTexture := false,
                    mouse_state := List.replicate 2 HardwareButton.init,
                    keyboard_state := List.replicate 26 HardwareButton.init }
  if ps = 0 then { retval := -1, state := s, acquisitions := 0 }
  else if w % ps ≠ 0 then { retval := -1, state := s, acquisitions := 0 }
  else if h % ps ≠ 0 then { retval := -1, state := s, acquisitions := 0 }
  else
    let s := { s with window_width := w, window_height := h, pixel_size := ps,
                      texture_width := w / ps, texture_height := h / ps }
    if bk.sdlInitOk = false then { retval := -1, state := s, acquisitions := 1 }
    else
      let s := { s with sdlLive := true }
      if bk.createWindowOk = false then { retval := -1, state := s, acquisitions := 2 }
      else
        let s := { s with hasWindow := true }
        if bk.createRendererOk = false then { retval := -1, state := s, acquisitions := 3 }
        else
          let s := { s with hasRenderer := true }
          if bk.createTextureOk = false then { retval := -1, state := s, acquisitions := 4 }
          else
            let s := { s with hasTexture := true }
            if bk.mallocOk = false then { retval := -1, state := s, acquisitions := 5 }
            else
              let s := { s with data := { rows := h / ps, cols := w / ps, data := fun _ => 0 } }
              { retval := 0, state := { s with init := true }, acquisitions := 5 }

/-- Embedding of `GameEngine::GetWidth`: the texture (raster) width when
constructed, 0 otherwise. -/
def getWidth (s : EngineState) : Nat :=
  if s.init then s.texture_width else 0

/-- Embedding of `GameEngine::GetHeight`: the texture (raster) height
when constructed, 0 otherwise. -/
def getHeight (s : EngineState) : Nat :=
  if s.init then s.texture_height else 0

/-- Embedding of `GameEngine::SetPixel(vec2D, Color)` (rico.hpp):
when constructed, `data[pos] = uint32_t(color)` through the
signed-coordinate, bounds-checked matrix access (which can throw);
otherwise a no-op. -/
def setPixel (s : EngineState) (x y : Int) (c : Color) : Except String EngineState :=
  if s.init then
    match s.data.vecSet x y c.toUInt32 with
    | .ok d => .ok { s with data := d }
    | .error e => .error e
  else .ok s

/-- Embedding of `GameEngine::SetPixel(Position, Color)` (variant
embedded in life.cpp): unsigned coordinates, same bounds checks. -/
def setPixelP (s : EngineState) (x y : Nat) (c : Color) : Except String EngineState :=
  if s.init then
    match s.data.posSet x y c.toUInt32 with
    | .ok d => .ok { s with data := d }
    | .error e => .error e
  else .ok s

/-- Embedding of `GameEngine::GetPixel(Position, Color*)` (variant
embedded in life.cpp): returns false (writing nothing) when the engine
is not constructed or the out-pointer is null; otherwise unpacks the
raster word at `pos` into the out-parameter and returns true.  Result:
the returned `bool` plus the value written to the out-parameter. -/
def getPixelP (s : EngineState) (x y : Nat) (outputNull : Bool) :
    Except String (Bool × Option Color) :=
  if s.init = false ∨ outputNull then .ok (false, none)
  else
    match s.data.posGet x y with
    | .ok w => .ok (true, some (Color.ofUInt32 w))
    | .error e => .error e

/-- Positions reported by the SDL mouse and window queries that
`GetMousePos` performs. -/
structure MouseEnv where
  windowX : Int
  windowY : Int
  globalX : Int
  globalY : Int

/-- Conversion of an `int32_t` value to `uint32_t` (C modular
conversion). -/
def toU32 (x : Int) : Nat :=
  (x % 4294967296).toNat

/-- Conversion of a `uint32_t` value back to `int32_t` (wraparound
reading of the high bit, as on all SDL platforms). -/
def ofU32 (n : Nat) : Int :=
  if n < 2147483648 then (n : Int) else (n : Int) - 4294967296

/-- Embedding of `GameEngine::GetMousePos`: returns false immediately
when not constructed (writing nothing); otherwise converts the global
cursor position to window-relative coordinates, writes the macro-pixel
coordinates to the out-parameter (the C++ divides the `int32_t` offset
by the `uint32_t` pixel size, so the division happens in `uint32_t`),
and reports whether the cursor is over the window. -/
def getMousePos (s : EngineState) (env : MouseEnv) : Bool × Option (Int × Int) :=
  if s.init = false then (false, none)
  else
    let x := env.globalX - env.windowX
    let y := env.globalY - env.windowY
    let out := (ofU32 (toU32 x / s.pixel_size), ofU32 (toU32 y / s.pixel_size))
    ((decide (0 ≤ x) && decide (toU32 x < s.window_width)
      && decide (0 ≤ y) && decide (toU32 y < s.window_height)), some out)

/-- Embedding of `GameEngine::GetButton`: when constructed and the
button is valid, the stored state at the dense index; otherwise a
default `HardwareButton()`. -/
def getButton (s : EngineState) (b : Button) : HardwareButton :=
  if s.init then
    match b.valid with
    | some i =>
        match b with
        | .mouse _ => s.mouse_state.getD i HardwareButton.init
        | .keyboard _ => s.keyboard_state.getD i HardwareButton.init
    | none => HardwareButton.init
  else HardwareButton.init

/-- Embedding of `GameEngine::WaitMs`: `some ms` models performing the
blocking sleep of `ms` milliseconds, `none` models not sleeping (the
not-constructed path). -/
def waitMs (s : EngineState) (ms : Nat) : Option Nat :=
  if s.init then some ms else none

/-- Observable behaviour of one iteration of the game loop in
`GameEngine::Run`: whether an SDL_QUIT event is among this frame's
polled events, the outcome of `OnUserUpdate` (`none` models a thrown
exception, `some b` a normal return), and whether the three display
calls all succeed. -/
structure FrameSpec where
  quitEvent : Bool
  updateResult : Option Bool
  presentOk : Bool
deriving DecidableEq, Repr

/-- Observable outcome of a terminating `GameEngine::Run`: the returned
status (0 = EXIT_SUCCESS, 1 = EXIT_FAILURE), whether `OnUserCreate` was
invoked and whether it succeeded, how many times `OnUserDestroy` was
invoked, and how many loop iterations executed. -/
structure RunOutcome where
  status : Nat
  createCalled : Bool
  createSucceeded : Bool
  destroyCount : Nat
  framesExecuted : Nat
deriving DecidableEq, Repr

/-- Game loop of `GameEngine::Run` over a finite trace of frame
behaviours: each iteration folds the quit event, the `OnUserUpdate`
outcome (a throw forces failure status and termination, a false return
requests termination) and the display outcome (a failure forces failure
status and termination) into the `end` flag and sticky status; `none`
means the trace ended before the loop did (a non-terminating run is
outside this model). -/
def runLoop : List FrameSpec → Nat → Nat → Option (Nat × Nat)
  | [], _, _ => none
  | f :: rest, status, n =>
      let e1 := f.quitEvent
      let su := match f.updateResult with
        | some b => (status, e1 || !b)
        | none => (1, true)
      let sp := if f.presentOk then su else (1, true)
      if sp.2 then some (sp.1, n + 1) else runLoop rest sp.1 (n + 1)

/-- Embedding of `GameEngine::Run` on an abstract trace: fail
immediately when the engine is not constructed; return success when the
stale-event purge finds a queued quit (before the app is constructed);
construct the app and run `OnUserCreate` (`none` models a throw), a
non-true outcome returning failure before any frame; otherwise run the
game loop, then invoke `OnUserDestroy` exactly once and return the loop
status. -/
def run (engineInit purgeQuit : Bool) (createResult : Option Bool)
    (frames : List FrameSpec) : Option RunOutcome :=
  if engineInit = false then
    some { status := 1, createCalled := false, createSucceeded := false,
           destroyCount := 0, framesExecuted := 0 }
  else if purgeQuit then
    some { status := 0, createCalled := false, createSucceeded := false,
           destroyCount := 0, framesExecuted := 0 }
  else if createResult ≠ some true then
    some { status := 1, createCalled := true, createSucceeded := false,
           destroyCount := 0, framesExecuted := 0 }
  else
    match runLoop frames 0 0 with
    | some (status, n) =>
        some { status := status, createCalled := true, createSucceeded := true,
               destroyCount := 1, framesExecuted := n }
    | none => none

/-- Result of the C library function `strtod` on the first process
argument, used by `GameOfLife::OnUserCreate` in life.cpp.  `arg` is
`some q` when the argument parses to the double value `q` (every double
embeds exactly into `ℚ`; NaN inputs are outside this model) and `none`
when no conversion can be performed, in which case ISO C specifies that
`strtod` returns zero. -/
def strtodValue (arg : Option ℚ) : ℚ :=
  arg.getD 0

/-- Embedding of the accept/reject decision of
`GameOfLife::OnUserCreate`: with at least one process argument the
density `ratio` becomes the `strtod` value of the first argument and
the function returns false when `ratio < 0.0 || ratio > 1.0`; in every
other case it proceeds to fill the grid and returns true. -/
def lifeOnUserCreate (argc : Nat) (arg1 : Option ℚ) : Bool :=
  if 2 ≤ argc then
    if strtodValue arg1 < 0 ∨ 1 < strtodValue arg1 then false else true
  else true

/-- Engine state holding a live instance: the result of a successful
Construct(640, 480, 10) with an all-successful backend. -/
def liveEngine : EngineState :=
  (construct EngineState.fresh Backend.allOk 640 480 10).state

/-- Live engine in which the left mouse button is currently held down. -/
def liveEngineWithInput : EngineState :=
  { liveEngine with
    mouse_state := [{ HardwareButton.init with down := true }, HardwareButton.init] }

/-- Re-construction of the live engine with the invalid configuration
(100, 100, 0). -/
def failedReconstruct : ConstructResult :=
  construct liveEngineWithInput Backend.allOk 100 100 0

/-- Smallest valid raster, 1 × 1, with zeroed contents. -/
def oneByOne : Mat2D Nat :=
  { rows := 1, cols := 1, data := fun _ => 0 }

theorem frame_pressed (b : HardwareButton) (r : Bool) :
    (HardwareButton.frame b r).pressed = (r && !b.previous) := by
  obtain ⟨p, d, rl, pv⟩ := b
  cases r <;> cases pv <;> rfl

theorem frame_released (b : HardwareButton) (r : Bool) :
    (HardwareButton.frame b r).released = (!r && b.previous) := by
  obtain ⟨p, d, rl, pv⟩ := b
  cases r <;> cases pv <;> rfl

theorem frame_down (b : HardwareButton) (r : Bool) :
    (HardwareButton.frame b r).down = r := by
  obtain ⟨p, d, rl, pv⟩ := b
  cases r <;> cases pv <;> rfl

theorem frame_previous (b : HardwareButton) (r : Bool) :
    (HardwareButton.frame b r).previous = r := by
  obtain ⟨p, d, rl, pv⟩ := b
  cases r <;> cases pv <;> rfl

theorem length_runFrames (b : HardwareButton) (raws : List Bool) :
    (runFrames b raws).length = raws.length := by
  induction raws generalizing b with
  | nil => rfl
  | cons r rs ih => simp [runFrames, ih]

theorem runFrames_getD (b : HardwareButton) (raws : List Bool) (i : Nat)
    (h : i < raws.length) :
    ((runFrames b raws).getD i HardwareButton.init).pressed
        = (raws.getD i false && !(prevRawAux b.previous raws i))
    ∧ ((runFrames b raws).getD i HardwareButton.init).released
        = (!(raws.getD i false) && prevRawAux b.previous raws i)
    ∧ ((runFrames b raws).getD i HardwareButton.init).down
        = raws.getD i false := by
  induction raws generalizing b i with
  | nil => simp at h
  | cons r rs ih =>
    cases i with
    | zero =>
      simp only [runFrames, List.getD_cons_zero, prevRawAux]
      exact ⟨frame_pressed b r, frame_released b r, frame_down b r⟩
    | succ j =>
      have hj : j < rs.length := by simpa using h
      have key := ih (HardwareButton.frame b r) j hj
      have hprev : prevRawAux (HardwareButton.frame b r).previous rs j
          = prevRawAux b.previous (r :: rs) (j + 1) := by
        cases j with
        | zero => simp [prevRawAux, frame_previous]
        | succ k => simp [prevRawAux]
      simp only [runFrames, List.getD_cons_succ]
      rw [← hprev]
      exact key

theorem ofUInt32_toUInt32 (c : Color) (hr : c.r < 256) (hg : c.g < 256) (hb : c.b < 256) :
    Color.ofUInt32 c.toUInt32 = c := by
  obtain ⟨r, g, b⟩ := c
  simp only [Color.toUInt32, Color.ofUInt32]
  simp only at hr hg hb
  have hm : (255 + 16777216 * r + 65536 * g + 256 * b) % 4294967296
      = 255 + 16777216 * r + 65536 * g + 256 * b := Nat.mod_eq_of_lt (by omega)
  rw [hm]
  refine Color.mk.injEq .. |>.mpr ⟨?_, ?_, ?_⟩ <;> omega

theorem rowSet_rowGet {T : Type} (m : Mat2D T) (row col : Nat) (v : T)
    (hr : row < m.rows) (hc : col < m.cols) :
    ∃ m2, m.rowSet row col v = .ok m2 ∧ m2.rowGet row col = .ok v := by
  refine ⟨⟨m.rows, m.cols, fun i => if i = m.cols * row + col then v else m.data i⟩, ?_, ?_⟩
  · rw [Mat2D.rowSet, if_neg (by omega : ¬ row ≥ m.rows), if_neg (by omega : ¬ col ≥ m.cols)]
  · dsimp only [Mat2D.rowGet]
    rw [if_neg (by omega : ¬ row ≥ m.rows), if_neg (by omega : ¬ col ≥ m.cols)]
    simp

/-- C1: for a freshly constructed HardwareButton (all four fields false)
and any finite sequence of raw `down` values applied one per frame with
`update()` after each, frame `i` has `pressed` true exactly when the raw
value transitioned false to true, `released` true exactly on a true to
false transition, never both in the same frame, and `down` equal to the
raw value; moreover a fresh button has `down = pressed = released =
false` and one `update()` with no raw-state change keeps it that way. -/
theorem hardwareButton_debounce_edges (raws : List Bool) (i : Nat) (h : i < raws.length) :
    HardwareButton.init.down = false
    ∧ HardwareButton.init.pressed = false
    ∧ HardwareButton.init.released = false
    ∧ HardwareButton.update HardwareButton.init = HardwareButton.init
    ∧ ((runFrames HardwareButton.init raws).getD i HardwareButton.init).pressed
        = (raws.getD i false && !(prevRaw raws i))
    ∧ ((runFrames HardwareButton.init raws).getD i HardwareButton.init).released
        = (!(raws.getD i false) && prevRaw raws i)
    ∧ ((runFrames HardwareButton.init raws).getD i HardwareButton.init).down
        = raws.getD i false
    ∧ ¬(((runFrames HardwareButton.init raws).getD i HardwareButton.init).pressed = true
        ∧ ((runFrames HardwareButton.init raws).getD i HardwareButton.init).released = true) := by
  obtain ⟨hp, hrel, hd⟩ := runFrames_getD HardwareButton.init raws i h
  refine ⟨rfl, rfl, rfl, rfl, hp, hrel, hd, ?_⟩
  rw [hp, hrel]
  cases hv : raws.getD i false <;> cases hw : prevRawAux HardwareButton.init.previous raws i <;>
    simp [prevRaw, HardwareButton.init] at *

/-- Witness for C1 at the raw sequence [true, true, false]: frame 0
is a rising edge (`pressed`), and the edge flags follow the stated
formulas. -/
theorem hardwareButton_debounce_edges_witness :
    ((runFrames HardwareButton.init [true, true, false]).getD 0 HardwareButton.init).pressed
      = true := by
  have h := hardwareButton_debounce_edges [true, true, false] 0 (by decide)
  rw [h.2.2.2.2.1]
  decide

/-- C3: Construct(100, 100, 0) returns -1; Construct(100, 101, 10)
returns -1 (101 is not divisible by 10); with every backend acquisition
succeeding, Construct(640, 480, 10) returns 0 and afterwards GetWidth
is 64 and GetHeight is 48 (raster dimensions). -/
theorem construct_dimension_validation :
    (construct EngineState.fresh Backend.allOk 100 100 0).retval = -1
    ∧ (construct EngineState.fresh Backend.allOk 100 101 10).retval = -1
    ∧ (construct EngineState.fresh Backend.allOk 640 480 10).retval = 0
    ∧ getWidth (construct EngineState.fresh Backend.allOk 640 480 10).state = 64
    ∧ getHeight (construct EngineState.fresh Backend.allOk 640 480 10).state = 48 :=
  ⟨rfl, rfl, rfl, rfl, rfl⟩

/-- C6: Mouse(LEFT) and Mouse(RIGHT) resolve valid with dense indices 0
and 1; Keyboard('a') through Keyboard('z') resolve valid with indices
0 through 25; Keyboard('A'), Keyboard('0'), Mouse(0) and Mouse(3)
resolve invalid (no index written). -/
theorem button_validity :
    Button.valid (Button.mouse Button.LEFT) = some 0
    ∧ Button.valid (Button.mouse Button.RIGHT) = some 1
    ∧ ((List.range 26).all fun k => Button.valid (Button.keyboard (97 + k)) == some k) = true
    ∧ Button.valid (Button.keyboard 65) = none
    ∧ Button.valid (Button.keyboard 48) = none
    ∧ Button.valid (Button.mouse 0) = none
    ∧ Button.valid (Button.mouse 3) = none := by
  decide

/-- C8: for all byte triples (r, g, b), unpacking the packed 32-bit
word of Color(r, g, b) yields (r, g, b) back, and the alpha byte of the
packed word is 255. -/
theorem color_pack_unpack_roundtrip (r g b : Nat) (hr : r < 256) (hg : g < 256) (hb : b < 256) :
    Color.ofUInt32 (Color.toUInt32 ⟨r, g, b⟩) = ⟨r, g, b⟩
    ∧ Color.toUInt32 ⟨r, g, b⟩ % 256 = 255 := by
  refine ⟨ofUInt32_toUInt32 ⟨r, g, b⟩ hr hg hb, ?_⟩
  simp only [Color.toUInt32]
  omega

/-- Witness for C8 at (10, 20, 30). -/
theorem color_pack_unpack_roundtrip_witness :
    Color.ofUInt32 (Color.toUInt32 ⟨10, 20, 30⟩) = ⟨10, 20, 30⟩
    ∧ Color.toUInt32 ⟨10, 20, 30⟩ % 256 = 255 :=
  color_pack_unpack_roundtrip 10 20 30 (by decide) (by decide) (by decide)

theorem destruct_init (s : EngineState) : s.destruct.init = false := by
  by_cases hI : s.init <;> simp [EngineState.destruct, hI]

/-- C2: on a ready engine, whenever Run terminates, OnUserDestroy is
invoked exactly once if and only if OnUserCreate previously succeeded;
when OnUserCreate returns false or throws, Run returns failure with no
frame executed and OnUserDestroy never called; when OnUserCreate
succeeds, OnUserDestroy runs exactly once after the loop ends. -/
theorem run_finalize_iff_create_succeeded (purgeQuit : Bool) (createResult : Option Bool)
    (frames : List FrameSpec) (r : RunOutcome)
    (h : run true purgeQuit createResult frames = some r) :
    (r.destroyCount = 1 ↔ r.createSucceeded = true)
    ∧ (purgeQuit = false → (createResult = none ∨ createResult = some false) →
        r.status = 1 ∧ r.framesExecuted = 0 ∧ r.destroyCount = 0 ∧ r.createCalled = true)
    ∧ (r.createSucceeded = true → r.destroyCount = 1) := by
  unfold run at h
  rw [if_neg (by simp)] at h
  by_cases hp : purgeQuit = true
  · rw [if_pos hp] at h
    obtain rfl := (Option.some.inj h).symm
    refine ⟨by simp, fun hpf _ => ?_, by simp⟩
    rw [hp] at hpf
    exact absurd hpf (by simp)
  · rw [if_neg hp] at h
    by_cases hc : createResult = some true
    · rw [if_neg (by simp [hc])] at h
      cases hl : runLoop frames 0 0 with
      | none => rw [hl] at h; exact absurd h (by simp)
      | some p =>
        obtain ⟨st, n⟩ := p
        rw [hl] at h
        obtain rfl := (Option.some.inj h).symm
        refine ⟨by simp, fun _ hbad => ?_, fun _ => rfl⟩
        rcases hbad with hb | hb <;> rw [hb] at hc <;> exact absurd hc (by simp)
    · rw [if_pos hc] at h
      obtain rfl := (Option.some.inj h).symm
      exact ⟨by simp, fun _ _ => ⟨rfl, rfl, rfl, rfl⟩, by simp⟩

/-- Witness for C2: a ready engine, a successful OnUserCreate and a
one-frame trace ending with a quit event terminate with exactly one
OnUserDestroy invocation. -/
theorem run_finalize_iff_create_succeeded_witness :
    ∃ r : RunOutcome,
      run true false (some true)
        [{ quitEvent := true, updateResult := some true, presentOk := true }] = some r
      ∧ r.destroyCount = 1 := by
  refine ⟨⟨0, true, true, 1, 1⟩, by decide, ?_⟩
  have h := run_finalize_iff_create_succeeded false (some true)
    [{ quitEvent := true, updateResult := some true, presentOk := true }]
    ⟨0, true, true, 1, 1⟩ (by decide)
  exact h.2.2 rfl

/-- C4 counterexample: at the concrete prior state `liveEngineWithInput`
(a live, previously constructed engine whose left mouse button is held
down), the invalid call Construct(100, 100, 0) returns -1 but does not
leave the prior state unchanged: the prior instance is torn down (the
`init` flag and the resource handles drop to false) and every
HardwareButton is reset. -/
theorem construct_invalid_prior_state_counterexample :
    liveEngineWithInput.init = true
    ∧ liveEngineWithInput.hasWindow = true
    ∧ liveEngineWithInput.mouse_state ≠ List.replicate 2 HardwareButton.init
    ∧ failedReconstruct.retval = -1
    ∧ failedReconstruct.state.init = false
    ∧ failedReconstruct.state.hasWindow = false
    ∧ failedReconstruct.state.sdlLive = false
    ∧ failedReconstruct.state.mouse_state = List.replicate 2 HardwareButton.init :=
  ⟨rfl, rfl, by decide, rfl, rfl, rfl, rfl, by decide⟩

/-- C4 as amended: Construct with an invalid configuration (zero
pixel_size or a window dimension that is not a multiple of pixel_size)
returns -1 without attempting any backend acquisition; however it first
tears down any live prior instance and resets every HardwareButton, so
it leaves the engine uninitialized with all handles released and all
button state cleared (not in its prior state). -/
theorem construct_invalid_config (s : EngineState) (bk : Backend) (w h ps : Nat)
    (hbad : ps = 0 ∨ w % ps ≠ 0 ∨ h % ps ≠ 0) :
    (construct s bk w h ps).retval = -1
    ∧ (construct s bk w h ps).acquisitions = 0
    ∧ (construct s bk w h ps).state.init = false
    ∧ (construct s bk w h ps).state.hasWindow = false
    ∧ (construct s bk w h ps).state.hasRenderer = false
    ∧ (construct s bk w h ps).state.hasTexture = false
    ∧ (construct s bk w h ps).state.mouse_state = List.replicate 2 HardwareButton.init
    ∧ (construct s bk w h ps).state.keyboard_state
        = List.replicate 26 HardwareButton.init := by
  rcases Nat.eq_zero_or_pos ps with hps | hps
  · subst hps
    refine ⟨?_, ?_, ?_, ?_, ?_, ?_, ?_, ?_⟩ <;> simp [construct, destruct_init]
  · have hps0 : ¬ ps = 0 := by omega
    by_cases hw : w % ps = 0
    · have hh : h % ps ≠ 0 := by
        rcases hbad with h1 | h1 | h1
        · omega
        · exact absurd hw h1
        · exact h1
      refine ⟨?_, ?_, ?_, ?_, ?_, ?_, ?_, ?_⟩ <;>
        simp [construct, destruct_init, hps0, hw, hh]
    · refine ⟨?_, ?_, ?_, ?_, ?_, ?_, ?_, ?_⟩ <;>
        simp [construct, destruct_init, hps0, hw]

/-- Witness for the amended C4 at Construct(100, 100, 0) from the fresh
state. -/
theorem construct_invalid_config_witness :
    (construct EngineState.fresh Backend.allOk 100 100 0).retval = -1
    ∧ (construct EngineState.fresh Backend.allOk 100 100 0).acquisitions = 0
    ∧ (construct EngineState.fresh Backend.allOk 100 100 0).state.init = false
    ∧ (construct EngineState.fresh Backend.allOk 100 100 0).state.hasWindow = false
    ∧ (construct EngineState.fresh Backend.allOk 100 100 0).state.hasRenderer = false
    ∧ (construct EngineState.fresh Backend.allOk 100 100 0).state.hasTexture = false
    ∧ (construct EngineState.fresh Backend.allOk 100 100 0).state.mouse_state
        = List.replicate 2 HardwareButton.init
    ∧ (construct EngineState.fresh Backend.allOk 100 100 0).state.keyboard_state
        = List.replicate 26 HardwareButton.init :=
  construct_invalid_config EngineState.fresh Backend.allOk 100 100 0 (Or.inl rfl)

/-- C5: on every matrix, get and set at (row, col) succeed whenever
row < rows and col < cols, fail with the out-of-range error whenever
row ≥ rows or col ≥ cols (so in particular at row = rows or col = cols,
or any larger index), and the coordinate overload fails on any negative
component; there is no clamp or wraparound. -/
theorem raster_bounds_check {T : Type} (m : Mat2D T) (row col : Nat) (v : T) (x y : Int) :
    (row < m.rows → col < m.cols →
      (∃ t, m.rowGet row col = .ok t) ∧ (∃ m2, m.rowSet row col v = .ok m2))
    ∧ (row ≥ m.rows ∨ col ≥ m.cols →
      m.rowGet row col = .error "index out of range"
      ∧ m.rowSet row col v = .error "index out of range")
    ∧ (x < 0 ∨ y < 0 →
      m.vecGet x y = .error "negative index"
      ∧ m.vecSet x y v = .error "negative index") := by
  refine ⟨fun hr hc => ?_, fun hbad => ?_, fun hneg => ?_⟩
  · obtain ⟨m2, hset, hget⟩ := rowSet_rowGet m row col v hr hc
    refine ⟨⟨m.data (m.cols * row + col), ?_⟩, ⟨m2, hset⟩⟩
    rw [Mat2D.rowGet, if_neg (by omega : ¬ row ≥ m.rows), if_neg (by omega : ¬ col ≥ m.cols)]
  · constructor
    · rw [Mat2D.rowGet]
      rcases hbad with hb | hb
      · rw [if_pos hb]
      · by_cases hrr : row ≥ m.rows
        · rw [if_pos hrr]
        · rw [if_neg hrr, if_pos hb]
    · rw [Mat2D.rowSet]
      rcases hbad with hb | hb
      · rw [if_pos hb]
      · by_cases hrr : row ≥ m.rows
        · rw [if_pos hrr]
        · rw [if_neg hrr, if_pos hb]
  · exact ⟨by rw [Mat2D.vecGet, if_pos hneg], by rw [Mat2D.vecSet, if_pos hneg]⟩

/-- Witness for C5 on the 1 × 1 matrix: (0,0) succeeds, row = rows and
col = cols fail out of range, a negative coordinate fails. -/
theorem raster_bounds_check_witness :
    (∃ t, oneByOne.rowGet 0 0 = .ok t)
    ∧ (∃ m2, oneByOne.rowSet 0 0 7 = .ok m2)
    ∧ oneByOne.rowGet 1 0 = .error "index out of range"
    ∧ oneByOne.rowGet 0 1 = .error "index out of range"
    ∧ oneByOne.vecGet (-1) 0 = .error "negative index" := by
  have h1 := raster_bounds_check oneByOne 0 0 7 (-1) 0
  have h2 := raster_bounds_check oneByOne 1 0 7 (-1) 0
  have h3 := raster_bounds_check oneByOne 0 1 7 (-1) 0
  have ha := h1.1 (by decide) (by decide)
  exact ⟨ha.1, ha.2, (h2.2.1 (Or.inl (by decide))).1, (h3.2.1 (Or.inr (by decide))).1,
    (h1.2.2 (Or.inl (by decide))).1⟩

/-- C7: whenever the engine is not initialized, GetWidth and GetHeight
return 0, SetPixel is a no-op (and raises nothing), GetMousePos returns
false and writes nothing, GetButton returns the default all-false
HardwareButton, and WaitMs performs no sleep. -/
theorem not_ready_engine_degrades (s : EngineState) (env : MouseEnv) (x y : Int)
    (c : Color) (b : Button) (ms : Nat) (h : s.init = false) :
    getWidth s = 0 ∧ getHeight s = 0 ∧ setPixel s x y c = .ok s
    ∧ (getMousePos s env).1 = false ∧ (getMousePos s env).2 = none
    ∧ getButton s b = HardwareButton.init ∧ waitMs s ms = none := by
  refine ⟨?_, ?_, ?_, ?_, ?_, ?_, ?_⟩ <;>
    simp [getWidth, getHeight, setPixel, getMousePos, getButton, waitMs, h]

/-- Witness for C7 on the fresh (never constructed) engine state. -/
theorem not_ready_engine_degrades_witness :
    getWidth EngineState.fresh = 0 ∧ getHeight EngineState.fresh = 0
    ∧ setPixel EngineState.fresh 3 4 ⟨1, 2, 3⟩ = .ok EngineState.fresh
    ∧ (getMousePos EngineState.fresh ⟨0, 0, 5, 5⟩).1 = false
    ∧ (getMousePos EngineState.fresh ⟨0, 0, 5, 5⟩).2 = none
    ∧ getButton EngineState.fresh (Button.mouse 1) = HardwareButton.init
    ∧ waitMs EngineState.fresh 33 = none :=
  not_ready_engine_degrades EngineState.fresh ⟨0, 0, 5, 5⟩ 3 4 ⟨1, 2, 3⟩ (Button.mouse 1) 33 rfl

/-- C9 counterexample: with two process arguments and a first argument
that is not a well-formed number (strtod performs no conversion and
returns 0.0, which lies inside [0, 1]), the Game-of-Life initialization
succeeds, whereas the claim says it must fail. -/
theorem life_create_invalid_argument_counterexample :
    lifeOnUserCreate 2 none = true := by
  decide

/-- C9 as amended: initialization fails exactly when there is at least
one process argument and the value strtod returns for it (0.0 when the
argument is not a well-formed number) lies outside [0.0, 1.0]; a
malformed argument therefore parses as density 0.0 and initialization
succeeds. -/
theorem life_create_density_range (argc : Nat) (arg1 : Option ℚ) :
    lifeOnUserCreate argc arg1 = false
    ↔ (2 ≤ argc ∧ (strtodValue arg1 < 0 ∨ 1 < strtodValue arg1)) := by
  unfold lifeOnUserCreate
  by_cases h : 2 ≤ argc <;>
    by_cases h2 : strtodValue arg1 < 0 ∨ 1 < strtodValue arg1 <;>
      simp [h, h2]

/-- C10: on a ready engine, for every in-range position and color,
SetPixel followed by GetPixel with a non-null output succeeds, returns
true, and yields a color with the same r, g, b components. -/
theorem set_get_pixel_roundtrip (s : EngineState) (px py : Nat) (c : Color)
    (hi : s.init = true) (hrows : s.data.rows = s.texture_height)
    (hcols : s.data.cols = s.texture_width)
    (hx : px < getWidth s) (hy : py < getHeight s)
    (h1 : c.r < 256) (h2 : c.g < 256) (h3 : c.b < 256) :
    ∃ s2, setPixelP s px py c = .ok s2
      ∧ getPixelP s2 px py false = .ok (true, some c) := by
  have hx2 : px < s.data.cols := by rw [hcols]; simpa [getWidth, hi] using hx
  have hy2 : py < s.data.rows := by rw [hrows]; simpa [getHeight, hi] using hy
  obtain ⟨m2, hset, hget⟩ := rowSet_rowGet s.data py px c.toUInt32 hy2 hx2
  refine ⟨{ s with data := m2 }, ?_, ?_⟩
  · rw [setPixelP, if_pos hi, Mat2D.posSet, hset]
  · rw [getPixelP, if_neg (by simp [hi])]
    dsimp only
    rw [Mat2D.posGet, hget]
    show Except.ok (true, some (Color.ofUInt32 c.toUInt32)) = Except.ok (true, some c)
    rw [ofUInt32_toUInt32 c h1 h2 h3]

/-- Witness for C10 on the live engine at position (3, 2) with color
(10, 20, 30). -/
theorem set_get_pixel_roundtrip_witness :
    ∃ s2, setPixelP liveEngine 3 2 ⟨10, 20, 30⟩ = .ok s2
      ∧ getPixelP s2 3 2 false = .ok (true, some ⟨10, 20, 30⟩) :=
  set_get_pixel_roundtrip liveEngine 3 2 ⟨10, 20, 30⟩ rfl rfl rfl (by decide) (by decide)
    (by decide) (by decide) (by decide)

end Rico
